import Mathlib

/-!
Verification development for the Self-Healing agent repository
(CrossPlatform edition).

This file gives a shallow embedding of the orchestration core of the
repository: the per-domain Remediators (`modules/network_remediation.py`,
`modules/disk_remediation.py`, `modules/service_remediation.py`,
`modules/printer_remediation.py`), the Agent pipeline (`agent.py`), and the
web coordinator (`web/dashboard.py`).

External effects (subprocess invocations, filesystem walks) are modelled by
explicit environment records: a step that in Python appends an action string
only when its external command succeeded is modelled by a Boolean field of
the environment saying whether that command succeeded.  Keyword matching,
control flow, status assignment and response construction are translated
statement by statement from the Python source.
-/

/-! ## String helpers mirroring Python string primitives -/

/-- Substring test on character lists: `needle` occurs contiguously in the
list.  Mirrors Python's `needle in haystack` for `str`. -/
def charsContain (needle : List Char) : List Char → Bool
  | [] => needle.isEmpty
  | c :: rest => needle.isPrefixOf (c :: rest) || charsContain needle rest

/-- Python `needle in haystack` (case-sensitive substring test). -/
def strContains (haystack needle : String) : Bool :=
  charsContain needle.data haystack.data

/-- Python `str.lower()` (ASCII case folding, which is all the source's
keyword sets need). -/
def pyLower (s : String) : String :=
  ⟨s.data.map Char.toLower⟩

/-- Python `str.split()` with no arguments: split on whitespace runs,
dropping empty fragments. -/
def pySplitWs (s : String) : List String :=
  (s.split Char.isWhitespace).filter (fun t => !t.isEmpty)

/-- Python `str.strip(":,.")`: drop the given characters from both ends.
Used by the service remediator's fallback service-name extraction. -/
def pyStripPunct (s : String) : String :=
  let punct : List Char := [':', ',', '.']
  ⟨((s.data.dropWhile punct.contains).reverse.dropWhile punct.contains).reverse⟩

/-! ## Shared data model (spec section 3) -/

/-- `RemediationResult`: the dictionary every `run_remediation` returns
(`success`, `actions_taken`, `action_count`).  The `error` field models the
`'error'` key that `dashboard.run_fix` adds on its failure paths. -/
structure RemediationResult where
  success : Bool
  actions_taken : List String
  action_count : Nat
  error : Option String := none
deriving DecidableEq, Repr

/-- `DetectionResult` as consumed by the orchestrator: the detectors'
domain-specific extra fields play no role in the claims. -/
structure DetectionResult where
  has_issues : Bool
  issues : List String
deriving DecidableEq, Repr

/-- Supported operating-system family, as reported by
`src/platform_detector.py` (`is_windows` / `is_macos` / `is_linux`);
`other` is a platform on which all three predicates are false. -/
inductive OSFamily
  | windows
  | macos
  | linux
  | other
deriving DecidableEq, Repr

/-! ## Network remediator (`modules/network_remediation.py`) -/

/-- Environment for `NetworkRemediator`: for each corrective step, whether
its platform-specific external commands ran without raising (with
`check=True`, a failed command raises and the step returns without
recording its action). -/
structure NetworkEnv where
  flushOk : Bool
  dhcpOk : Bool
  restartOk : Bool
  resetOk : Bool
deriving DecidableEq, Repr

/-- `has_dns_issue`: `any('DNS' in issue or 'resolution' in issue ...)` —
note the matching is case-sensitive in the source. -/
def hasDnsIssue (issues : List String) : Bool :=
  issues.any fun issue => strContains issue "DNS" || strContains issue "resolution"

/-- `has_connectivity_issue`: `any('internet' in issue.lower() or
'connectivity' in issue.lower() ...)`. -/
def hasConnectivityIssue (issues : List String) : Bool :=
  issues.any fun issue =>
    strContains (pyLower issue) "internet" || strContains (pyLower issue) "connectivity"

/-- `has_gateway_issue`: `any('gateway' in issue.lower() ...)`. -/
def hasGatewayIssue (issues : List String) : Bool :=
  issues.any fun issue => strContains (pyLower issue) "gateway"

namespace NetworkRemediator

/-- `NetworkRemediator.run_remediation(issues)`: the four keyword-gated
steps in source order; each appends its action string when its commands
succeed; `success` is `len(actions_taken) > 0`. -/
def run_remediation (env : NetworkEnv) (issues : List String) : RemediationResult :=
  let a1 := if hasDnsIssue issues && env.flushOk then ["Flushed DNS cache"] else []
  let a2 := if (hasConnectivityIssue issues || hasGatewayIssue issues) && env.dhcpOk then
      ["Renewed DHCP lease"] else []
  let a3 := if hasConnectivityIssue issues && env.restartOk then
      ["Restarted network service"] else []
  let a4 := if hasConnectivityIssue issues && decide (issues.length > 2) && env.resetOk then
      ["Reset network adapter: default"] else []
  let actions := a1 ++ a2 ++ a3 ++ a4
  { success := decide (actions.length > 0)
    actions_taken := actions
    action_count := actions.length }

end NetworkRemediator

/-- Network environment in which every corrective command succeeds. -/
def allOkNetworkEnv : NetworkEnv :=
  { flushOk := true, dhcpOk := true, restartOk := true, resetOk := true }

/-! ## Disk remediator (`modules/disk_remediation.py`)

The four cleanup operations touch the filesystem; the environment supplies
what the filesystem would report.  Per-directory failures inside each step
are caught by the step's inner `try` and only skip that directory, so a
step as a whole always completes; the space figures that end up inside the
action strings are supplied pre-formatted by the environment (they come
from `_get_dir_size`, i.e. from the filesystem). -/

/-- Environment for `DiskRemediator`. -/
structure DiskEnv where
  platform : OSFamily
  /-- formatted `freed_mb` figure for the temp-file step. -/
  tempFreedStr : String
  /-- whether the browser-cache step freed a strictly positive amount
  (`if freed_mb > 0` guards its action string). -/
  browserFreedPos : Bool
  browserFreedStr : String
  /-- whether the system-log step freed a strictly positive amount. -/
  logsFreedPos : Bool
  logsFreedStr : String
  /-- Windows: whether the `Clear-RecycleBin` PowerShell call returned
  within its timeout (a timeout raises, is caught, and skips the append). -/
  recycleOk : Bool
  /-- macOS/Linux: whether the user trash directory exists. -/
  trashExists : Bool
  trashFreedStr : String
deriving DecidableEq, Repr

namespace DiskRemediator

/-- `clean_temp_files`: cleans every temp directory (per-directory errors
caught inside), then unconditionally records its action string. -/
def clean_temp_files (env : DiskEnv) : List String :=
  ["Cleaned temporary files (" ++ env.tempFreedStr ++ " MB freed)"]

/-- `clean_browser_cache`: records an action only when `freed_mb > 0`. -/
def clean_browser_cache (env : DiskEnv) : List String :=
  if env.browserFreedPos then
    ["Cleaned browser cache (" ++ env.browserFreedStr ++ " MB freed)"]
  else []

/-- `clean_system_logs`: records an action only when `freed_mb > 0`. -/
def clean_system_logs (env : DiskEnv) : List String :=
  if env.logsFreedPos then
    ["Cleaned system logs (" ++ env.logsFreedStr ++ " MB freed)"]
  else []

/-- `empty_recycle_bin`: Windows empties the recycle bin via PowerShell
(action recorded unless the call times out); macOS/Linux remove and
recreate the trash directory when it exists; other platforms do nothing. -/
def empty_recycle_bin (env : DiskEnv) : List String :=
  match env.platform with
  | .windows => if env.recycleOk then ["Emptied Recycle Bin"] else []
  | .macos | .linux =>
    if env.trashExists then
      ["Emptied Trash (" ++ env.trashFreedStr ++ " MB freed)"]
    else []
  | .other => []

/-- `DiskRemediator.run_remediation(issues)`: runs all four cleanup steps
unconditionally in the fixed source order, never branching on the issue
texts; `success` is `len(actions_taken) > 0`. -/
def run_remediation (env : DiskEnv) (_issues : List String) : RemediationResult :=
  let actions := clean_temp_files env ++ clean_browser_cache env
      ++ clean_system_logs env ++ empty_recycle_bin env
  { success := decide (actions.length > 0)
    actions_taken := actions
    action_count := actions.length }

end DiskRemediator

/-! ## Service remediator (`modules/service_remediation.py`) -/

/-- Environment for `ServiceRemediator`: the platform, whether the
platform-specific restart commands for a given named service succeed, and
whether the print-spooler repair's commands succeed. -/
structure ServiceEnv where
  platform : OSFamily
  restartOk : String → Bool
  spoolerOk : Bool

namespace ServiceRemediator

/-- `restart_service(service_name)`: on each supported platform the action
string is recorded exactly when the restart commands succeed; on an
unrecognised platform the method returns `False` without acting. -/
def restart_service (env : ServiceEnv) (service_name : String) : List String :=
  match env.platform with
  | .windows | .macos | .linux =>
    if env.restartOk service_name then ["Restarted service: " ++ service_name] else []
  | .other => []

/-- `fix_print_spooler`: Windows clears the spool directory and restarts
the `Spooler` service; macOS/Linux restart CUPS. -/
def fix_print_spooler (env : ServiceEnv) : List String :=
  match env.platform with
  | .windows =>
    if env.spoolerOk then ["Fixed print spooler (cleared queue and restarted)"] else []
  | .macos | .linux =>
    if env.spoolerOk then ["Restarted CUPS printing service"] else []
  | .other => []

/-- Keywords of the generic-fallback scan: `['service', 'stopped', 'not']`. -/
def fallbackKeywords : List String := ["service", "stopped", "not"]

/-- The fallback heuristic of `run_remediation`: walk the
whitespace-separated words; at the first index `i > 0` whose lowercased
word is one of the keywords, take the preceding word stripped of `:,.`
(a keyword at index 0 does not fire because of the `if i > 0` guard). -/
def extractServiceName (issue : String) : Option String :=
  let parts := pySplitWs issue
  (parts.enum.find? fun p =>
      decide (p.1 > 0) && fallbackKeywords.contains (pyLower p.2)).map
    fun p => pyStripPunct (parts.getD (p.1 - 1) "")

/-- Actions produced for a single issue by the `elif` keyword chain of
`ServiceRemediator.run_remediation`. -/
def issueActions (env : ServiceEnv) (issue : String) : List String :=
  let il := pyLower issue
  if strContains il "spooler" || strContains il "print" then
    fix_print_spooler env
  else if strContains il "dhcp" then
    match env.platform with
    | .windows => restart_service env "Dhcp"
    | .linux => restart_service env "dhclient"
    | _ => []
  else if strContains il "dns" then
    match env.platform with
    | .windows => restart_service env "Dnscache"
    | .linux => restart_service env "systemd-resolved"
    | _ => []
  else if strContains il "update" || strContains il "wuauserv" then
    match env.platform with
    | .windows => restart_service env "wuauserv"
    | _ => []
  else if strContains il "defender" || strContains il "windefend" then
    match env.platform with
    | .windows => restart_service env "WinDefend"
    | _ => []
  else if strContains il "ssh" then
    match env.platform with
    | .windows => restart_service env "sshd"
    | .linux => restart_service env "ssh"
    | _ => []
  else if strContains il "stopped" || strContains il "not running" then
    match extractServiceName issue with
    | some service_name => restart_service env service_name
    | none => []
  else []

/-- `ServiceRemediator.run_remediation(issues)`: per-issue keyword routing,
accumulating `actions_taken`; `success` is `len(actions_taken) > 0`. -/
def run_remediation (env : ServiceEnv) (issues : List String) : RemediationResult :=
  let actions := issues.foldl (fun acc issue => acc ++ issueActions env issue) []
  { success := decide (actions.length > 0)
    actions_taken := actions
    action_count := actions.length }

end ServiceRemediator

/-! ## Printer remediator (`modules/printer_remediation.py`) -/

/-- Environment for `PrinterRemediator`: success of each platform-specific
repair command batch. -/
structure PrinterEnv where
  platform : OSFamily
  spoolerOk : Bool
  clearQueueOk : Bool
  cupsOk : Bool
  cupsClearOk : Bool
deriving DecidableEq, Repr

namespace PrinterRemediator

/-- `restart_print_spooler_windows`. -/
def restart_print_spooler_windows (env : PrinterEnv) : List String :=
  if env.spoolerOk then ["Restarted Print Spooler and cleared queue"] else []

/-- `clear_print_queue_windows`. -/
def clear_print_queue_windows (env : PrinterEnv) : List String :=
  if env.clearQueueOk then ["Cleared all print jobs from queue"] else []

/-- `restart_cups_service` (meaningful on macOS/Linux, where it is called). -/
def restart_cups_service (env : PrinterEnv) : List String :=
  if env.cupsOk then ["Restarted CUPS printing service"] else []

/-- `clear_cups_queue`. -/
def clear_cups_queue (env : PrinterEnv) : List String :=
  if env.cupsClearOk then ["Cleared CUPS print queue"] else []

/-- Actions produced for a single issue by
`PrinterRemediator.run_remediation`'s per-platform keyword chain. -/
def issueActions (env : PrinterEnv) (issue : String) : List String :=
  let il := pyLower issue
  match env.platform with
  | .windows =>
    if strContains il "spooler" || strContains il "not running" then
      restart_print_spooler_windows env
    else if strContains il "stuck" || strContains il "queue" || strContains il "job" then
      clear_print_queue_windows env ++ restart_print_spooler_windows env
    else if strContains il "no printers" then
      ["No printers installed - requires manual setup"]
    else []
  | .macos | .linux =>
    if strContains il "cups" || strContains il "not running" || strContains il "not active" then
      restart_cups_service env
    else if strContains il "queue" || strContains il "job" then
      clear_cups_queue env ++ restart_cups_service env
    else if strContains il "no printers" then
      ["No printers installed - requires manual setup"]
    else []
  | .other => []

/-- `PrinterRemediator.run_remediation(issues)`. -/
def run_remediation (env : PrinterEnv) (issues : List String) : RemediationResult :=
  let actions := issues.foldl (fun acc issue => acc ++ issueActions env issue) []
  { success := decide (actions.length > 0)
    actions_taken := actions
    action_count := actions.length }

end PrinterRemediator

/-! ## Agent pipeline (`agent.py`) -/

/-- Module-result status strings.  The first seven are the values
`SelfHealingAgent.run_module` assigns; the last two are assigned only by
the dashboard's per-issue fix thread (`dashboard.run_fix`). -/
inductive Status
  | NOT_RUN
  | NO_ISSUES
  | TEST_ONLY
  | REMEDIATION_SUCCESS
  | REMEDIATION_PARTIAL
  | ERROR
  | NOT_IMPLEMENTED
  | REMEDIATION_FAILED
  | REMEDIATION_ERROR
deriving DecidableEq, Repr

/-- The six terminal statuses of the module-run state machine
(spec section 4.1). -/
def agentTerminalStatuses : List Status :=
  [.NO_ISSUES, .TEST_ONLY, .REMEDIATION_SUCCESS, .REMEDIATION_PARTIAL,
   .ERROR, .NOT_IMPLEMENTED]

/-- One entry of the Agent's result list.  The Python dictionary also
carries a `timestamp` string, irrelevant to every claim and omitted here.
`error` models the `'error'` key, present only after a caught exception. -/
structure ModuleResult where
  module : String
  detection : Option DetectionResult
  remediation : Option RemediationResult
  verification : Option DetectionResult
  status : Status
  error : Option String
deriving DecidableEq, Repr

/-- Behaviour of one domain's detector/remediator pair as seen from
`run_module`: each call either returns a value or raises (modelled with
`Except`, the error carrying `str(e)`). -/
structure ModuleEnv where
  detect : Except String DetectionResult
  remediate : List String → Except String RemediationResult
  verify : Except String DetectionResult

/-- The module names with a registered detector/remediator branch in
`run_module` (and in `dashboard.run_fix`). -/
def knownModules : List String := ["network", "disk", "service", "printer"]

/-- `SelfHealingAgent.run_module(module_name)`: the per-domain pipeline.
The four registered branches are textually identical up to the classes
imported and the settle delay, so they are modelled once, the environment
supplying the per-domain behaviour.  Every exception raised by a step is
caught by the surrounding `try`, which stamps `status = ERROR` and
`error = str(e)` and stops the pipeline. -/
def run_module (test_only : Bool) (env : String → ModuleEnv) (name : String) :
    ModuleResult :=
  let base : ModuleResult :=
    { module := name
      detection := none
      remediation := none
      verification := none
      status := .NOT_RUN
      error := none }
  if knownModules.contains name then
    match (env name).detect with
    | .error e => { base with status := .ERROR, error := some e }
    | .ok d =>
      if d.has_issues then
        if test_only then
          { base with detection := some d, status := .TEST_ONLY }
        else
          match (env name).remediate d.issues with
          | .error e =>
            { base with detection := some d, status := .ERROR, error := some e }
          | .ok r =>
            match (env name).verify with
            | .error e =>
              { base with
                detection := some d
                remediation := some r
                status := .ERROR
                error := some e }
            | .ok v =>
              { base with
                detection := some d
                remediation := some r
                verification := some v
                status := if v.has_issues then .REMEDIATION_PARTIAL
                  else .REMEDIATION_SUCCESS }
      else { base with detection := some d, status := .NO_ISSUES }
  else { base with status := .NOT_IMPLEMENTED }

/-- `SelfHealingAgent.run()`: iterate the requested modules in order,
skipping those not in the configuration's `enabled_modules`, appending one
`ModuleResult` per executed module, and return the accumulated list. -/
def agentRun (test_only : Bool) (env : String → ModuleEnv)
    (enabled : List String) : List String → List ModuleResult
  | [] => []
  | m :: rest =>
    if enabled.contains m then
      run_module test_only env m :: agentRun test_only env enabled rest
    else
      agentRun test_only env enabled rest

/-! ## Web coordinator (`web/dashboard.py`) -/

/-- Response produced by `start_scan` (`POST /api/scan`): the HTTP status,
the echoed module list (present only on acceptance), the error text of the
conflict body, and whether a background scan thread was spawned. -/
structure ScanResponse where
  status : Nat
  modules : Option (List String)
  error : Option String
  spawned : Bool
deriving DecidableEq, Repr

/-- `start_scan`: reject while `scan_in_progress` is truthy, else take the
requested modules (defaulting to `['network', 'disk', 'service']`), spawn
the scan thread, and return the Flask-default 200 response echoing the
module list.  The conflict branch returns status 400. -/
def start_scan (scan_in_progress : Bool) (body : Option (List String)) :
    ScanResponse :=
  if scan_in_progress then
    { status := 400
      modules := none
      error := some "Scan already in progress"
      spawned := false }
  else
    { status := 200
      modules := some (body.getD ["network", "disk", "service"])
      error := none
      spawned := true }

/-- Observable events of the scan coordinator: a `POST /api/scan` request
that was accepted (spawning a thread), one that got the conflict response,
a spawned `run_agent_scan` thread executing its first statement
(`scan_in_progress = True`), and a thread finishing (its `finally` block
running `scan_in_progress = False`). -/
inductive DashEvent
  | accepted
  | conflict
  | threadBegin
  | threadEnd
deriving DecidableEq, Repr

/-- Coordinator state: the module-level `scan_in_progress` flag, the number
of spawned scan threads that have not yet reached their first statement,
and the number of threads currently running the Agent. -/
structure DashState where
  scan_in_progress : Bool
  pending : Nat
  running : Nat
deriving DecidableEq, Repr

/-- Interleaving semantics of `start_scan` / `run_agent_scan`.  The request
handler tests `scan_in_progress` but never sets it; the flag is written
only by the background thread itself, so a request is accepted whenever no
spawned thread has yet set the flag. -/
inductive DashStep : DashState → DashEvent → DashState → Prop
  | request_ok {s : DashState} (h : s.scan_in_progress = false) :
      DashStep s .accepted { s with pending := s.pending + 1 }
  | request_conflict {s : DashState} (h : s.scan_in_progress = true) :
      DashStep s .conflict s
  | thread_begin {s : DashState} (h : 0 < s.pending) :
      DashStep s .threadBegin ⟨true, s.pending - 1, s.running + 1⟩
  | thread_end {s : DashState} (h : 0 < s.running) :
      DashStep s .threadEnd ⟨false, s.pending, s.running - 1⟩

/-- Execution traces of the coordinator. -/
inductive DashTrace : DashState → List DashEvent → DashState → Prop
  | nil {s : DashState} : DashTrace s [] s
  | cons {s s2 s3 : DashState} {e : DashEvent} {es : List DashEvent} :
      DashStep s e s2 → DashTrace s2 es s3 → DashTrace s (e :: es) s3

/-- Process start: flag clear, no threads. -/
def dashInit : DashState := ⟨false, 0, 0⟩

/-- The snapshot published by `run_agent_scan` into
`current_scan_results`: its `'results'` list (the other keys — timestamp,
platform, summary — play no role in the claims). -/
structure Snapshot where
  results : List ModuleResult
deriving DecidableEq, Repr

/-- A background fix task dispatched by `fix_issue`: the module name and
the single issue text handed to `run_fix`. -/
structure FixJob where
  module : String
  issue : String
deriving DecidableEq, Repr

/-- Outcome of the `fix_issue` request handler (`POST
/api/fix/<module>/<issue_index>`): either an HTTP response (with the
error tag of its JSON body and the fix task it spawned, if any), or an
uncaught handler exception.  The latter happens when the stored
`'detection'` value is `None`: `detection.get('issues', [])` then raises
`AttributeError` out of the handler. -/
inductive FixOutcome
  | response (status : Nat) (errorTag : Option String) (job : Option FixJob)
  | crash
deriving DecidableEq, Repr

/-- The snapshot lookup in `fix_issue`: first result whose `'module'`
equals the requested name. -/
def findModuleResult (results : List ModuleResult) (name : String) :
    Option ModuleResult :=
  results.find? fun r => r.module == name

/-- `fix_issue(module_name, issue_index)`: 403 without admin rights, 404
without a snapshot, 404 for an unknown module, 404 for an out-of-range
index (no task spawned in any of these cases); otherwise spawn the fix
thread on `[issues[issue_index]]` and return the Flask-default 200
response.  The route converter `<int:issue_index>` only matches
non-negative integers, so the index is a natural number. -/
def fix_issue (is_admin : Bool) (snapshot : Option Snapshot)
    (module_name : String) (issue_index : Nat) : FixOutcome :=
  if !is_admin then
    .response 403 (some "insufficient_privileges") none
  else
    match snapshot with
    | none => .response 404 (some "no_results") none
    | some snap =>
      match findModuleResult snap.results module_name with
      | none => .response 404 (some "module_not_found") none
      | some mr =>
        match mr.detection with
        | none => .crash
        | some d =>
          if d.issues.length ≤ issue_index then
            .response 404 (some "invalid_index") none
          else
            .response 200 none (some ⟨module_name, d.issues.getD issue_index ""⟩)

/-- `run_fix` (the background thread body inside `fix_issue`): dispatch on
the module name to the matching Remediator with the singleton issue list;
an unknown module yields a failure dictionary; then overwrite the targeted
`ModuleResult`'s `remediation` and `status` in place —
`REMEDIATION_SUCCESS` when the result reports success,
`REMEDIATION_FAILED` otherwise, and `REMEDIATION_ERROR` when an exception
was raised (its remediation then carrying only the error text). -/
def run_fix (rem : String → List String → Except String RemediationResult)
    (job : FixJob) (mr : ModuleResult) : ModuleResult :=
  if knownModules.contains job.module then
    match rem job.module [job.issue] with
    | .ok r =>
      { mr with
        remediation := some r
        status := if r.success then .REMEDIATION_SUCCESS else .REMEDIATION_FAILED }
    | .error e =>
      { mr with
        remediation := some { success := false, actions_taken := [], action_count := 0, error := some e }
        status := .REMEDIATION_ERROR }
  else
    { mr with
      remediation := some { success := false, actions_taken := [], action_count := 0, error := some "Unknown module" }
      status := .REMEDIATION_FAILED }

/-- `run_agent_scan(modules)` (the scan thread body): construct
`SelfHealingAgent(test_only=True, modules=modules)` — note the hard-wired
`test_only=True` — and run it; the agent defaults to all four domains when
`modules` is `None`. -/
def run_agent_scan (env : String → ModuleEnv) (enabled : List String)
    (modules : Option (List String)) : Snapshot :=
  { results :=
      agentRun true env enabled
        (modules.getD ["network", "disk", "service", "printer"]) }

/-- The Agent-running portion of the `'service'` branch of
`auto_fix_issue` (`POST /api/diagnostics/auto-fix`, dashboard lines
1330-1342): construct `SelfHealingAgent(test_only=False,
modules=['service'])`, run it, and collect the `actions_taken` of every
successful service remediation. -/
def auto_fix_service_agent_actions (env : String → ModuleEnv)
    (enabled : List String) : List String :=
  (agentRun false env enabled ["service"]).foldl
    (fun acc r =>
      if r.module == "service" then
        match r.remediation with
        | some remRes => if remRes.success then acc ++ remRes.actions_taken else acc
        | none => acc
      else acc)
    []

/-- The first error raised along the pipeline of one module run, in
pipeline order (detect, then — when issues were found and remediation is
enabled — remediate, then verify); `none` when no step raises. -/
def pipelineRaise (m : ModuleEnv) (test_only : Bool) : Option String :=
  match m.detect with
  | .error e => some e
  | .ok d =>
    if d.has_issues && !test_only then
      match m.remediate d.issues with
      | .error e => some e
      | .ok _ =>
        match m.verify with
        | .error e => some e
        | .ok _ => none
    else none

/-! ## Concrete instances used by witnesses and counterexamples -/

/-- A disk environment: Linux host whose browser-cache and log cleanups
free nothing and whose trash directory is absent. -/
def diskEnvC : DiskEnv :=
  { platform := .linux, tempFreedStr := "0.00", browserFreedPos := false,
    browserFreedStr := "0.00", logsFreedPos := false, logsFreedStr := "0.00",
    recycleOk := false, trashExists := false, trashFreedStr := "0.00" }

/-- A module environment whose detector raises `RuntimeError("boom")` for
every domain. -/
def errEnvC : String → ModuleEnv := fun _ =>
  { detect := .error "boom"
    remediate := fun _ =>
      .ok { success := true, actions_taken := [], action_count := 0 }
    verify := .ok { has_issues := false, issues := [] } }

/-- A Windows service environment where every restart command succeeds. -/
def svcEnvC : ServiceEnv :=
  { platform := .windows, restartOk := fun _ => true, spoolerOk := true }

/-- A module environment for the `service` domain: the detector finds a
stopped print spooler, the remediator behaves as `ServiceRemediator` on a
Windows host where every command succeeds, and verification comes back
clean. -/
def autoFixEnvC : String → ModuleEnv := fun _ =>
  { detect := .ok { has_issues := true
                    issues := ["Print Spooler service is not running"] }
    remediate := fun issues => .ok (ServiceRemediator.run_remediation svcEnvC issues)
    verify := .ok { has_issues := false, issues := [] } }

/-- A module environment whose detector reports one network issue; used to
exercise the test-only branch. -/
def testEnvC : String → ModuleEnv := fun _ =>
  { detect := .ok { has_issues := true
                    issues := ["DNS resolution failed for google.com"] }
    remediate := fun _ =>
      .ok { success := true, actions_taken := ["x"], action_count := 1 }
    verify := .ok { has_issues := false, issues := [] } }

/-- A snapshot holding one test-only network result with a single issue. -/
def snapC : Snapshot :=
  { results := [{ module := "network"
                  detection := some { has_issues := true
                                      issues := ["DNS resolution failed for google.com"] }
                  remediation := none
                  verification := none
                  status := .TEST_ONLY
                  error := none }] }

/-- A fix job targeting the network module. -/
def jobC : FixJob := { module := "network", issue := "DNS resolution failed for google.com" }

/-- A module result for the fix thread to overwrite. -/
def mrC : ModuleResult :=
  { module := "network"
    detection := some { has_issues := true
                        issues := ["DNS resolution failed for google.com"] }
    remediation := none
    verification := none
    status := .TEST_ONLY
    error := none }

/-- A remediator function that completes but records no action. -/
def failingRemC : String → List String → Except String RemediationResult :=
  fun _ _ => .ok { success := false, actions_taken := [], action_count := 0 }

/-- A remediator function that raises. -/
def raisingRemC : String → List String → Except String RemediationResult :=
  fun _ _ => .error "boom"

/-! ## Helper lemmas -/

/-- `run` visits exactly the requested-and-enabled modules, each through
`run_module`: the run always returns this list, no exception escaping. -/
theorem agentRun_eq_map (test_only : Bool) (env : String → ModuleEnv)
    (enabled requested : List String) :
    agentRun test_only env enabled requested =
      (requested.filter (fun m => enabled.contains m)).map
        (run_module test_only env) := by
  induction requested with
  | nil => rfl
  | cons m rest ih =>
    by_cases h : m ∈ enabled
    · have hc : enabled.contains m = true := by simpa using h
      simp [agentRun, List.filter_cons, h, hc, ih]
    · have hc : enabled.contains m = false := by simpa using h
      simp [agentRun, List.filter_cons, h, hc, ih]

/-- `len(actions) > 0` as a Bool is exactly non-emptiness of the list. -/
theorem decide_length_pos_iff (l : List String) :
    decide (l.length > 0) = true ↔ l ≠ [] := by
  simp [List.length_pos]

/-- The DNS-flush action appears in the network remediation output exactly
when the (case-sensitive) DNS keyword test fired and the flush commands
succeeded. -/
theorem network_flush_mem (env : NetworkEnv) (issues : List String) :
    ("Flushed DNS cache" ∈ (NetworkRemediator.run_remediation env issues).actions_taken
      ↔ (hasDnsIssue issues && env.flushOk) = true) := by
  cases hD : hasDnsIssue issues <;> cases hF : env.flushOk <;>
    cases hC : hasConnectivityIssue issues <;> cases hG : hasGatewayIssue issues <;>
    cases hR : env.restartOk <;> cases hRd : env.dhcpOk <;>
    cases hL : decide (issues.length > 2) <;> cases hRs : env.resetOk <;>
    simp [NetworkRemediator.run_remediation, hD, hF, hC, hG, hR, hRd, hL, hRs]

/-! ## Claim C3 -/

/-- C3 counterexample: the claim says keyword dispatch is case-insensitive,
so the issue "dns lookup failing" should trigger the DNS-cache flush.  In
the source `has_dns_issue` tests `'DNS' in issue or 'resolution' in issue`
without lowering the text, so this issue matches the claimed
case-insensitive keyword test yet fires nothing: even with every command
succeeding, the remediation takes no action at all. -/
theorem c3_counterexample :
    strContains (pyLower "dns lookup failing") "dns" = true ∧
    hasDnsIssue ["dns lookup failing"] = false ∧
    (NetworkRemediator.run_remediation allOkNetworkEnv
        ["dns lookup failing"]).actions_taken = [] := by
  decide

/-- C3 (amended): the DNS-cache-flush step fires if and only if some
issue's text contains `"DNS"` or `"resolution"` as a case-sensitive
substring (`has_dns_issue` does not lowercase the issue text, unlike the
connectivity and gateway keyword tests). -/
theorem c3_flush_iff_case_sensitive (env : NetworkEnv) (issues : List String)
    (hOk : env.flushOk = true) :
    ("Flushed DNS cache" ∈ (NetworkRemediator.run_remediation env issues).actions_taken
      ↔ ∃ issue ∈ issues,
          strContains issue "DNS" = true ∨ strContains issue "resolution" = true) := by
  rw [network_flush_mem, hOk, Bool.and_true]
  simp [hasDnsIssue, List.any_eq_true]

/-- C3 witness: with the flush command succeeding, the issue
"DNS resolution failed for google.com" contains `"DNS"`, and the flush
action is indeed recorded. -/
theorem c3_witness :
    ("Flushed DNS cache" ∈ (NetworkRemediator.run_remediation allOkNetworkEnv
        ["DNS resolution failed for google.com"]).actions_taken) :=
  (c3_flush_iff_case_sensitive allOkNetworkEnv
      ["DNS resolution failed for google.com"] rfl).mpr
    ⟨"DNS resolution failed for google.com", by decide, by decide⟩

/-! ## Claim C4 -/

/-- C4: for each of the four Remediators, `run_remediation` reports
`success = true` exactly when `actions_taken` is non-empty, and
`action_count` is the length of `actions_taken` (so `success` iff
`action_count >= 1`).  All four functions are total: an empty action list
is an ordinary `success = false` return, not an exception. -/
theorem c4_success_iff_actions (ne : NetworkEnv) (de : DiskEnv)
    (se : ServiceEnv) (pe : PrinterEnv) (is1 is2 is3 is4 : List String) :
    ((NetworkRemediator.run_remediation ne is1).success = true ↔
      (NetworkRemediator.run_remediation ne is1).actions_taken ≠ []) ∧
    (NetworkRemediator.run_remediation ne is1).action_count =
      (NetworkRemediator.run_remediation ne is1).actions_taken.length ∧
    ((DiskRemediator.run_remediation de is2).success = true ↔
      (DiskRemediator.run_remediation de is2).actions_taken ≠ []) ∧
    (DiskRemediator.run_remediation de is2).action_count =
      (DiskRemediator.run_remediation de is2).actions_taken.length ∧
    ((ServiceRemediator.run_remediation se is3).success = true ↔
      (ServiceRemediator.run_remediation se is3).actions_taken ≠ []) ∧
    (ServiceRemediator.run_remediation se is3).action_count =
      (ServiceRemediator.run_remediation se is3).actions_taken.length ∧
    ((PrinterRemediator.run_remediation pe is4).success = true ↔
      (PrinterRemediator.run_remediation pe is4).actions_taken ≠ []) ∧
    (PrinterRemediator.run_remediation pe is4).action_count =
      (PrinterRemediator.run_remediation pe is4).actions_taken.length := by
  refine ⟨?_, rfl, ?_, rfl, ?_, rfl, ?_, rfl⟩ <;>
    exact decide_length_pos_iff _

/-! ## Claim C8 -/

/-- C8: for every non-empty issue list, disk remediation runs exactly the
four cleanup steps in the fixed source order (temp files, browser cache,
system logs, recycle bin), its output never depends on the issue texts,
and at least one action is always recorded (the temp-file step records its
action unconditionally), so `action_count >= 1`. -/
theorem c8_disk_fixed_battery (env : DiskEnv) (issues : List String)
    (_h : issues ≠ []) :
    (DiskRemediator.run_remediation env issues).actions_taken =
      DiskRemediator.clean_temp_files env ++ DiskRemediator.clean_browser_cache env ++
      DiskRemediator.clean_system_logs env ++ DiskRemediator.empty_recycle_bin env ∧
    1 ≤ (DiskRemediator.run_remediation env issues).action_count ∧
    (∀ issues2 : List String,
      DiskRemediator.run_remediation env issues2 =
        DiskRemediator.run_remediation env issues) := by
  refine ⟨rfl, ?_, fun issues2 => rfl⟩
  simp [DiskRemediator.run_remediation, DiskRemediator.clean_temp_files]

/-- C8 witness: a single critical disk issue on a host where the optional
steps free nothing still yields at least one recorded action. -/
theorem c8_witness :
    (["Critical: Very low disk space: 2.0GB free"] : List String) ≠ [] ∧
    1 ≤ (DiskRemediator.run_remediation diskEnvC
        ["Critical: Very low disk space: 2.0GB free"]).action_count :=
  ⟨by decide,
    (c8_disk_fixed_battery diskEnvC ["Critical: Very low disk space: 2.0GB free"]
      (by decide)).2.1⟩

/-- Every status `run_module` assigns is one of the six terminal statuses
of the module-run state machine. -/
theorem run_module_status_terminal (t : Bool) (env : String → ModuleEnv)
    (name : String) :
    (run_module t env name).status ∈ agentTerminalStatuses := by
  unfold run_module
  repeat' split
  all_goals simp [agentTerminalStatuses]

/-- When a pipeline step raises, `run_module` ends in `ERROR` carrying the
exception message, and verification never ran. -/
theorem run_module_raise (t : Bool) (env : String → ModuleEnv)
    (name : String) (e : String)
    (hk : knownModules.contains name = true)
    (hraise : pipelineRaise (env name) t = some e) :
    (run_module t env name).status = .ERROR ∧
    (run_module t env name).error = some e ∧
    (run_module t env name).verification = none := by
  have hmem : name ∈ knownModules := by simpa using hk
  unfold pipelineRaise at hraise
  unfold run_module
  rcases hdet : (env name).detect with e0 | d
  · rw [hdet] at hraise
    simp only [Option.some.injEq] at hraise
    subst hraise
    simp [hmem, hdet]
  · rw [hdet] at hraise
    simp only at hraise
    by_cases hi : d.has_issues = true
    · by_cases ht : t = true
      · rw [hi, ht] at hraise
        simp at hraise
      · have ht2 : t = false := by simpa using ht
        rw [hi, ht2] at hraise
        simp only [Bool.and_self, Bool.not_false, if_true] at hraise
        rcases hrem : (env name).remediate d.issues with e1 | r
        · rw [hrem] at hraise
          simp only [Option.some.injEq] at hraise
          subst hraise
          simp [hmem, hdet, hi, ht2, hrem]
        · rw [hrem] at hraise
          rcases hver : (env name).verify with e2 | v
          · rw [hver] at hraise
            simp only [Option.some.injEq] at hraise
            subst hraise
            simp [hmem, hdet, hi, ht2, hrem, hver]
          · rw [hver] at hraise
            simp at hraise
    · have hi2 : d.has_issues = false := by simpa using hi
      rw [hi2] at hraise
      simp at hraise

/-- In a test-only run, any result that recorded issues took the
`TEST_ONLY` exit and left `remediation` untouched. -/
theorem run_module_true_frame (env : String → ModuleEnv) (name : String)
    (d : DetectionResult)
    (hd : (run_module true env name).detection = some d)
    (hi : d.has_issues = true) :
    (run_module true env name).status = .TEST_ONLY ∧
    (run_module true env name).remediation = none := by
  by_cases hk : name ∈ knownModules
  · rcases hdet : (env name).detect with e0 | d0
    · simp [run_module, hk, hdet] at hd
    · by_cases hi0 : d0.has_issues = true
      · simp [run_module, hk, hdet, hi0]
      · have hi0f : d0.has_issues = false := by simpa using hi0
        simp [run_module, hk, hdet, hi0f] at hd
        subst hd
        rw [hi] at hi0f
        cases hi0f
  · simp [run_module, hk] at hd

/-! ## Claim C5 -/

/-- C5: an exception raised by any pipeline step of module `name` is
caught at the `run_module` boundary: the result ends in `ERROR` with
`error` equal to the exception message, the pipeline did not continue past
the failing step (verification is never reached; when the detector itself
raised, detection and remediation also stay null), and the Agent's `run`
still returns one `ModuleResult` per requested-and-enabled module — it
never raises. -/
theorem c5_error_boundary (test_only : Bool) (env : String → ModuleEnv)
    (enabled requested : List String) (name e : String)
    (hk : knownModules.contains name = true)
    (hraise : pipelineRaise (env name) test_only = some e) :
    (run_module test_only env name).status = .ERROR ∧
    (run_module test_only env name).error = some e ∧
    (run_module test_only env name).verification = none ∧
    ((env name).detect = Except.error e →
      (run_module test_only env name).detection = none ∧
      (run_module test_only env name).remediation = none) ∧
    agentRun test_only env enabled requested =
      (requested.filter (fun m => enabled.contains m)).map
        (run_module test_only env) := by
  obtain ⟨h1, h2, h3⟩ := run_module_raise test_only env name e hk hraise
  refine ⟨h1, h2, h3, ?_, agentRun_eq_map test_only env enabled requested⟩
  intro hdet
  have hmem : name ∈ knownModules := by simpa using hk
  simp [run_module, hmem, hdet]

/-- C5 witness: a detector that raises `"boom"` on the network module of a
two-module run yields `ERROR` with that message, null detection, and the
run still returns both module results. -/
theorem c5_witness :
    (run_module false errEnvC "network").status = Status.ERROR ∧
    (run_module false errEnvC "network").error = some "boom" ∧
    (run_module false errEnvC "network").detection = none ∧
    agentRun false errEnvC ["network", "disk"] ["network", "disk"] =
      [run_module false errEnvC "network", run_module false errEnvC "disk"] := by
  have h := c5_error_boundary false errEnvC ["network", "disk"] ["network", "disk"]
      "network" "boom" (by decide) (by rfl)
  refine ⟨h.1, h.2.1, (h.2.2.2.1 (by rfl)).1, ?_⟩
  rw [h.2.2.2.2]
  rfl

/-! ## Claim C6 -/

/-- C6: test-only mode is side-effect-free: when detection of a registered
module reports issues and `test_only` is set, the result is `TEST_ONLY`
with `remediation` and `verification` still null, and the outcome is
entirely independent of the remediator (any environment with the same
detector behaviour produces the identical result — the Remediator is never
invoked). -/
theorem c6_test_only_no_remediation (env : String → ModuleEnv) (name : String)
    (d : DetectionResult) (hk : knownModules.contains name = true)
    (hdet : (env name).detect = Except.ok d) (hi : d.has_issues = true) :
    (run_module true env name).status = .TEST_ONLY ∧
    (run_module true env name).remediation = none ∧
    (run_module true env name).verification = none ∧
    (∀ env2 : String → ModuleEnv, (env2 name).detect = (env name).detect →
      run_module true env2 name = run_module true env name) := by
  have hmem : name ∈ knownModules := by simpa using hk
  refine ⟨?_, ?_, ?_, ?_⟩
  · simp [run_module, hmem, hdet, hi]
  · simp [run_module, hmem, hdet, hi]
  · simp [run_module, hmem, hdet, hi]
  · intro env2 h2
    rw [hdet] at h2
    simp [run_module, hmem, hdet, h2, hi]

/-- C6 witness: a network detection with one issue under test-only mode. -/
theorem c6_witness :
    (run_module true testEnvC "network").status = Status.TEST_ONLY ∧
    (run_module true testEnvC "network").remediation = none ∧
    (run_module true testEnvC "network").verification = none := by
  have h := c6_test_only_no_remediation testEnvC "network"
      { has_issues := true, issues := ["DNS resolution failed for google.com"] }
      (by decide) (by rfl) rfl
  exact ⟨h.1, h.2.1, h.2.2.1⟩

/-! ## Claim C1 -/

/-- C1 counterexample: the at-most-one-scan invariant fails.  Starting
from process start, two `POST /api/scan` requests arriving before either
spawned thread has executed its first statement are both accepted (the
handler only reads `scan_in_progress`; the flag is set by the background
thread), after which both threads begin: a reachable state with two Agent
runs in progress at once, the second call never having received a conflict
response although the first scan had not completed. -/
theorem c1_counterexample :
    DashTrace dashInit
      [DashEvent.accepted, DashEvent.accepted,
       DashEvent.threadBegin, DashEvent.threadBegin]
      ⟨true, 0, 2⟩ ∧
    1 < (⟨true, 0, 2⟩ : DashState).running := by
  refine ⟨?_, by decide⟩
  refine DashTrace.cons (DashStep.request_ok rfl) ?_
  refine DashTrace.cons (DashStep.request_ok rfl) ?_
  refine DashTrace.cons (DashStep.thread_begin (by decide)) ?_
  exact DashTrace.cons (DashStep.thread_begin (by decide)) DashTrace.nil

/-- C1 (amended): once `scan_in_progress` is true, no scan request can be
accepted — every request step is the conflict response, which spawns no
thread and leaves the state unchanged.  The invariant claimed for every
interleaving, however, only holds from the moment a spawned thread has set
the flag: before that, a second request can be accepted (see the
counterexample). -/
theorem c1_conflict_while_flag_set (s sNext : DashState) (e : DashEvent)
    (hstep : DashStep s e sNext) (hflag : s.scan_in_progress = true) :
    e ≠ DashEvent.accepted ∧ (e = DashEvent.conflict → sNext = s) := by
  cases hstep <;> simp_all

/-- C1 witness: a conflict response in a state with the flag set leaves
the state unchanged. -/
theorem c1_witness :
    DashEvent.conflict ≠ DashEvent.accepted ∧
    (⟨true, 0, 1⟩ : DashState) = ⟨true, 0, 1⟩ :=
  ⟨(c1_conflict_while_flag_set ⟨true, 0, 1⟩ ⟨true, 0, 1⟩ DashEvent.conflict
      (DashStep.request_conflict rfl) rfl).1,
   (c1_conflict_while_flag_set ⟨true, 0, 1⟩ ⟨true, 0, 1⟩ DashEvent.conflict
      (DashStep.request_conflict rfl) rfl).2 rfl⟩

/-! ## Claim C2 -/

/-- C2 counterexample: the handler does not use the claimed HTTP statuses.
With a scan in progress the conflict response carries status 400, not 409;
with no scan in progress the acceptance response carries the Flask default
200, not 202. -/
theorem c2_counterexample :
    (start_scan true (some ["network"])).status = 400 ∧
    (start_scan true (some ["network"])).status ≠ 409 ∧
    (start_scan false (some ["network"])).status = 200 ∧
    (start_scan false (some ["network"])).status ≠ 202 := by
  decide

/-- C2 (amended): when no scan is in progress the response has status 200
and echoes the requested module list (defaulting to
`['network', 'disk', 'service']` when the body gives none) and a scan
thread is spawned; when a scan is in progress the response has status 400
with the conflict error, no thread is spawned, and the prior scan is
untouched (a conflict step leaves the coordinator state unchanged, so the
running scan is neither queued behind nor cancelled). -/
theorem c2_status_codes (body : Option (List String)) :
    start_scan true body =
      { status := 400, modules := none,
        error := some "Scan already in progress", spawned := false } ∧
    (∀ ms : List String, start_scan false (some ms) =
      { status := 200, modules := some ms, error := none, spawned := true }) ∧
    start_scan false none =
      { status := 200, modules := some ["network", "disk", "service"],
        error := none, spawned := true } ∧
    (∀ s sNext : DashState, DashStep s DashEvent.conflict sNext → sNext = s) := by
  refine ⟨rfl, fun ms => rfl, rfl, ?_⟩
  intro s sNext hstep
  cases hstep
  rfl

/-- C2 witness: concrete requests on both sides of the flag, and a
concrete conflict step leaving the state unchanged. -/
theorem c2_witness :
    (start_scan true none).status = 400 ∧
    (start_scan false (some ["disk"])).modules = some ["disk"] ∧
    (⟨true, 0, 1⟩ : DashState) = ⟨true, 0, 1⟩ := by
  have h := c2_status_codes none
  exact ⟨by rw [h.1], by rw [h.2.1 ["disk"]],
    h.2.2.2 ⟨true, 0, 1⟩ ⟨true, 0, 1⟩ (DashStep.request_conflict rfl)⟩

/-! ## Claim C7 -/

/-- C7: with admin rights, a snapshot present, the module found and its
detection recorded: an index at or beyond `len(issues)` yields the 404
invalid-index response with no fix task spawned; an in-range index yields
the 200 response spawning a fix task on exactly `issues[issue_index]`, and
the fix thread consults the Remediator only at that module with the
singleton issue list (its outcome is unchanged under any replacement
remediator agreeing on that single call, and the remediation it stores for
a registered module is the Remediator's result on that singleton). -/
theorem c7_fix_issue_bounds (snap : Snapshot) (module_name : String)
    (idx : Nat) (mr : ModuleResult) (d : DetectionResult)
    (hfind : findModuleResult snap.results module_name = some mr)
    (hdet : mr.detection = some d) :
    (d.issues.length ≤ idx →
      fix_issue true (some snap) module_name idx =
        .response 404 (some "invalid_index") none) ∧
    (idx < d.issues.length →
      fix_issue true (some snap) module_name idx =
        .response 200 none (some ⟨module_name, d.issues.getD idx ""⟩)) ∧
    (∀ rem rem2 : String → List String → Except String RemediationResult,
      ∀ job : FixJob, ∀ mr2 : ModuleResult,
        rem job.module [job.issue] = rem2 job.module [job.issue] →
        run_fix rem job mr2 = run_fix rem2 job mr2) ∧
    (∀ rem : String → List String → Except String RemediationResult,
      ∀ r : RemediationResult, ∀ mr2 : ModuleResult, ∀ job : FixJob,
        knownModules.contains job.module = true →
        rem job.module [job.issue] = Except.ok r →
        (run_fix rem job mr2).remediation = some r) := by
  refine ⟨?_, ?_, ?_, ?_⟩
  · intro h
    simp [fix_issue, hfind, hdet, h]
  · intro h
    simp [fix_issue, hfind, hdet, Nat.not_le.mpr h]
  · intro rem rem2 job mr2 hagree
    simp [run_fix, hagree]
  · intro rem r mr2 job hk hok
    have hmem : job.module ∈ knownModules := by simpa using hk
    simp [run_fix, hmem, hok]

/-- C7 witness: index 5 on a one-issue module gives the invalid-index 404;
index 0 spawns the fix task on the single issue. -/
theorem c7_witness :
    fix_issue true (some snapC) "network" 5 =
      FixOutcome.response 404 (some "invalid_index") none ∧
    fix_issue true (some snapC) "network" 0 =
      FixOutcome.response 200 none
        (some ⟨"network", "DNS resolution failed for google.com"⟩) := by
  have h := c7_fix_issue_bounds snapC "network" 5
      (snapC.results.getD 0 mrC)
      { has_issues := true, issues := ["DNS resolution failed for google.com"] }
      (by rfl) (by rfl)
  have h0 := c7_fix_issue_bounds snapC "network" 0
      (snapC.results.getD 0 mrC)
      { has_issues := true, issues := ["DNS resolution failed for google.com"] }
      (by rfl) (by rfl)
  exact ⟨h.1 (by decide), h0.2.1 (by decide)⟩

/-! ## Claim C9 -/

/-- C9 counterexample: FixIssue is not the only web path to remediation.
The `POST /api/diagnostics/auto-fix` handler's service branch runs the
Agent with `test_only=False`: on a Windows host whose detector finds a
stopped print spooler it performs and reports a remediation action — a
second, non-FixIssue remediation path. -/
theorem c9_counterexample :
    auto_fix_service_agent_actions autoFixEnvC ["service"] =
      ["Fixed print spooler (cleared queue and restarted)"] ∧
    (run_module false autoFixEnvC "service").remediation =
      some { success := true
             actions_taken := ["Fixed print spooler (cleared queue and restarted)"]
             action_count := 1 } := by
  constructor <;> rfl

/-- C9 (amended): every scan started through `POST /api/scan` constructs
the Agent with `test_only=True`, so a web-initiated full scan never
performs remediation — every module result that recorded issues ends in
`TEST_ONLY` with `remediation` null.  FixIssue is however not the only web
path to remediation: `POST /api/diagnostics/auto-fix` also remediates,
even running the Agent with `test_only=False` for service issues. -/
theorem c9_web_scan_never_remediates (env : String → ModuleEnv)
    (enabled : List String) (modules : Option (List String))
    (r : ModuleResult) (d : DetectionResult)
    (hr : r ∈ (run_agent_scan env enabled modules).results)
    (hd : r.detection = some d) (hi : d.has_issues = true) :
    (r.status = .TEST_ONLY ∧ r.remediation = none) ∧
    auto_fix_service_agent_actions autoFixEnvC ["service"] ≠ [] := by
  refine ⟨?_, by decide⟩
  simp only [run_agent_scan] at hr
  rw [agentRun_eq_map] at hr
  obtain ⟨m, hm, rfl⟩ := List.mem_map.mp hr
  exact run_module_true_frame env m d hd hi

/-- C9 witness: a concrete web scan of the network module alone. -/
theorem c9_witness :
    (run_module true testEnvC "network").status = Status.TEST_ONLY ∧
    (run_module true testEnvC "network").remediation = none ∧
    auto_fix_service_agent_actions autoFixEnvC ["service"] ≠ [] := by
  have h := c9_web_scan_never_remediates testEnvC
      ["network", "disk", "service", "printer"] (some ["network"])
      (run_module true testEnvC "network")
      { has_issues := true, issues := ["DNS resolution failed for google.com"] }
      (by decide) (by rfl) rfl
  exact ⟨h.1.1, h.1.2, h.2⟩

/-! ## Claim C10 -/

/-- C10: the fix thread always overwrites the targeted result's status
with one of `REMEDIATION_SUCCESS`, `REMEDIATION_FAILED` (remediation
completed reporting no success) or `REMEDIATION_ERROR` (an exception was
raised); the latter two lie outside the six terminal statuses of the
module-run state machine and are never produced by `run_module`, so a
snapshot read after a fix can expose a status no full scan can produce —
exhibited by a remediator that records no action and by one that raises. -/
theorem c10_fix_statuses
    (rem : String → List String → Except String RemediationResult)
    (job : FixJob) (mr : ModuleResult) (t : Bool)
    (env : String → ModuleEnv) (name : String) :
    ((run_fix rem job mr).status = Status.REMEDIATION_SUCCESS ∨
     (run_fix rem job mr).status = Status.REMEDIATION_FAILED ∨
     (run_fix rem job mr).status = Status.REMEDIATION_ERROR) ∧
    (run_module t env name).status ≠ Status.REMEDIATION_FAILED ∧
    (run_module t env name).status ≠ Status.REMEDIATION_ERROR ∧
    Status.REMEDIATION_FAILED ∉ agentTerminalStatuses ∧
    Status.REMEDIATION_ERROR ∉ agentTerminalStatuses ∧
    (run_fix failingRemC jobC mrC).status = Status.REMEDIATION_FAILED ∧
    (run_fix raisingRemC jobC mrC).status = Status.REMEDIATION_ERROR := by
  refine ⟨?_, ?_, ?_, by decide, by decide, by rfl, by rfl⟩
  · by_cases hk : job.module ∈ knownModules
    · rcases hrem : rem job.module [job.issue] with e | r
      · simp [run_fix, hk, hrem]
      · cases hs : r.success <;> simp [run_fix, hk, hrem, hs]
    · simp [run_fix, hk]
  · intro hEq
    have hmem := run_module_status_terminal t env name
    rw [hEq] at hmem
    exact absurd hmem (by decide)
  · intro hEq
    have hmem := run_module_status_terminal t env name
    rw [hEq] at hmem
    exact absurd hmem (by decide)

/-- C10 witness: the two out-of-state-machine statuses at concrete
inputs. -/
theorem c10_witness :
    (run_fix failingRemC jobC mrC).status = Status.REMEDIATION_FAILED ∧
    (run_fix raisingRemC jobC mrC).status = Status.REMEDIATION_ERROR :=
  ⟨(c10_fix_statuses failingRemC jobC mrC false errEnvC "network").2.2.2.2.2.1,
   (c10_fix_statuses failingRemC jobC mrC false errEnvC "network").2.2.2.2.2.2⟩
